import Mathlib

/-!
Shallow embedding of the payment-method enrollment service in `src/main.py`:
pydantic request validation, bcrypt credential hashing, and one SQLAlchemy
persistence writer per endpoint (card, Apple Pay, PayPal), together with the
FastAPI request pipeline (body validation, `get_db` session scope, the
endpoint handler with its catch-all exception boundary).

Nondeterminism is made explicit: the random salts drawn by `bcrypt.gensalt()`
are parameters, the bcrypt digest computation is an abstract function
parameter (its output is appended to the salt, as in the real modular-crypt
output format), and the outcome of `db.commit()` is a parameter carrying the
storage-layer error message when it fails.
-/

namespace Payment

/-- Python `datetime.date` value: year, month, day. -/
structure SimpleDate where
  year : Int
  month : Int
  day : Int
deriving DecidableEq, Repr

/-- Gregorian leap-year rule used by `datetime.date`. -/
def isLeapYear (y : Int) : Bool :=
  y % 4 == 0 && (y % 100 != 0 || y % 400 == 0)

/-- Number of days in a month, as validated by `datetime.date`. -/
def daysInMonth (y m : Int) : Int :=
  if m = 2 then (if isLeapYear y then 29 else 28)
  else if m = 4 ∨ m = 6 ∨ m = 9 ∨ m = 11 then 30
  else 31

/-- Constructor `datetime.date(year, month, day)`: raises `ValueError` when
year is outside MINYEAR..MAXYEAR (1..9999), month is outside 1..12, or day is
outside the month's range. -/
def dateNew (year month day : Int) : Except String SimpleDate :=
  if year < 1 ∨ 9999 < year then .error "year is out of range"
  else if month < 1 ∨ 12 < month then .error "month must be in 1..12"
  else if day < 1 ∨ daysInMonth year month < day then .error "day is out of range for month"
  else .ok ⟨year, month, day⟩

/-- Pydantic model `CardPaymentRequest` (all fields required, plain types). -/
structure CardPaymentRequest where
  name : String
  card_number : String
  expires_month : Int
  expires_year : Int
  cvv : String
deriving DecidableEq, Repr

/-- Pydantic model `ApplePayPaymentRequest`: required `EmailStr` email,
optional phone_number (default None), required password. -/
structure ApplePayPaymentRequest where
  email : String
  phone_number : Option String
  password : String
deriving DecidableEq, Repr

/-- Pydantic model `PayPalPaymentRequest`: required `EmailStr` email,
required password, optional phone_number (default None). -/
structure PayPalPaymentRequest where
  email : String
  password : String
  phone_number : Option String
deriving DecidableEq, Repr

/-- Incoming JSON body for the card endpoint, before validation: each field
is either present (`some`) or absent (`none`). -/
structure RawCardBody where
  name : Option String
  card_number : Option String
  expires_month : Option Int
  expires_year : Option Int
  cvv : Option String
deriving DecidableEq, Repr

/-- Incoming JSON body for the Apple Pay and PayPal endpoints. -/
structure RawAccountBody where
  email : Option String
  password : Option String
  phone_number : Option String
deriving DecidableEq, Repr

/-- Pydantic validation failure, surfaced by FastAPI as a 422 response with
field-level detail. -/
inductive ValidationError where
  | missing (field : String)
  | invalidEmail (field : String)
deriving DecidableEq, Repr

/-- Split a character list at each occurrence of the at-sign. -/
def splitAtSign : List Char → List (List Char)
  | [] => [[]]
  | c :: rest =>
      let r := splitAtSign rest
      if c = '@' then [] :: r
      else
        match r with
        | [] => [[c]]
        | h :: t => (c :: h) :: t

/-- Model of the `EmailStr` syntax check: exactly one at-sign, a non-empty
local part, and a non-empty domain that contains a dot, not at either end. -/
def isValidEmail (s : String) : Bool :=
  match splitAtSign s.data with
  | [lp, dom] =>
      !lp.isEmpty && !dom.isEmpty && dom.contains '.' &&
      dom.head? != some '.' && dom.getLast? != some '.'
  | _ => false

/-- Pydantic validation of a card body: every field must be present; the
plain `str` and `int` annotations impose no further constraint. -/
def CardPaymentRequest.validate (r : RawCardBody) :
    Except ValidationError CardPaymentRequest :=
  match r.name, r.card_number, r.expires_month, r.expires_year, r.cvv with
  | some n, some cn, some m, some y, some c => .ok ⟨n, cn, m, y, c⟩
  | none, _, _, _, _ => .error (.missing "name")
  | _, none, _, _, _ => .error (.missing "card_number")
  | _, _, none, _, _ => .error (.missing "expires_month")
  | _, _, _, none, _ => .error (.missing "expires_year")
  | _, _, _, _, none => .error (.missing "cvv")

/-- Pydantic validation of an Apple Pay body: email and password required,
email checked against address syntax, phone_number defaults to absent. -/
def ApplePayPaymentRequest.validate (r : RawAccountBody) :
    Except ValidationError ApplePayPaymentRequest :=
  match r.email, r.password with
  | some e, some p =>
      if isValidEmail e then .ok ⟨e, r.phone_number, p⟩
      else .error (.invalidEmail "email")
  | none, _ => .error (.missing "email")
  | _, none => .error (.missing "password")

/-- Pydantic validation of a PayPal body: same checks as Apple Pay. -/
def PayPalPaymentRequest.validate (r : RawAccountBody) :
    Except ValidationError PayPalPaymentRequest :=
  match r.email, r.password with
  | some e, some p =>
      if isValidEmail e then .ok ⟨e, p, r.phone_number⟩
      else .error (.invalidEmail "email")
  | none, _ => .error (.missing "email")
  | _, none => .error (.missing "password")

/-- Model of `bcrypt.hashpw(password, salt)`: the stored representation is
the salt verbatim followed by the digest of password and salt.  The digest
computation is abstract (a parameter); what matters for the stored value is
that the salt is embedded at the front, as in the real modular-crypt format. -/
def hashpw (digest : String → String → String) (password salt : String) : String :=
  salt ++ digest password salt

/-- Function `hash_password` of src/main.py:
`bcrypt.hashpw(password.encode, bcrypt.gensalt()).decode`.  The fresh random
salt drawn by `gensalt` is the explicit `salt` argument; every `gensalt`
output has the same length (a fixed header plus 22 radix-64 characters). -/
def hash_password (digest : String → String → String) (salt password : String) : String :=
  hashpw digest password salt

/-- Row of table `card_payments` (primary key: card_number). -/
structure CardPayment where
  name : String
  card_number : String
  expires : SimpleDate
  cvv : String
deriving DecidableEq, Repr

/-- Row of table `apple_pay_payments` (primary key: email). -/
structure ApplePayPayment where
  email : String
  phone_number : Option String
  password_hash : String
deriving DecidableEq, Repr

/-- Row of table `paypal_payments` (primary key: email). -/
structure PayPalPayment where
  email : String
  password_hash : String
  phone_number : Option String
deriving DecidableEq, Repr

/-- The relational store: one table per payment method. -/
structure Store where
  card_payments : List CardPayment
  apple_pay_payments : List ApplePayPayment
  paypal_payments : List PayPalPayment
deriving DecidableEq, Repr

/-- Observable actions a handler performs, in order. -/
inductive Event where
  | hashed (plaintext : String)
  | dbAdd
  | dbCommit
deriving DecidableEq, Repr

/-- HTTP response as seen by the client. -/
inductive Response where
  | success (message : String)
  | validationFailure (err : ValidationError)
  | httpError (statusCode : Int) (detail : String)
deriving DecidableEq, Repr

/-- HTTP status code of a response: 200 on success, 422 on validation
failure, otherwise the raised `HTTPException` status. -/
def Response.status : Response → Int
  | .success _ => 200
  | .validationFailure _ => 422
  | .httpError code _ => code

/-- A SQLAlchemy session as scoped by `get_db`. -/
structure Session where
  closed : Bool
deriving DecidableEq, Repr

/-- `SessionLocal()`: a freshly opened session. -/
def Session.openNew : Session := ⟨false⟩

/-- `db.close()`, run by the `finally` block of `get_db`. -/
def Session.close (s : Session) : Session := { s with closed := true }

/-- Endpoint `card_payment` (`POST /payment/card`).  `saltCard` and `saltCvv`
are the salts drawn by the two `bcrypt.gensalt()` calls; `commitErr = some e`
means `db.commit()` raises with storage-layer message `e` (duplicate primary
key, constraint violation, connection loss), in which case the transaction is
not committed, the session rollback on close discards the staged row, and the
catch-all boundary raises `HTTPException(500, static detail)`. -/
def card_payment (digest : String → String → String) (saltCard saltCvv : String)
    (commitErr : Option String) (payment : CardPaymentRequest) (store : Store) :
    Response × Store × List Event :=
  let hashed_card_number := hash_password digest saltCard payment.card_number
  let hashed_cvv := hash_password digest saltCvv payment.cvv
  match dateNew payment.expires_year payment.expires_month 1 with
  | .error _ =>
      (.httpError 500 "Error processing card payment", store,
       [.hashed payment.card_number, .hashed payment.cvv])
  | .ok expires_date =>
      let db_payment : CardPayment :=
        { name := payment.name, card_number := hashed_card_number,
          expires := expires_date, cvv := hashed_cvv }
      match commitErr with
      | some _ =>
          (.httpError 500 "Error processing card payment", store,
           [.hashed payment.card_number, .hashed payment.cvv, .dbAdd, .dbCommit])
      | none =>
          (.success "Card payment processed successfully",
           { store with card_payments := store.card_payments ++ [db_payment] },
           [.hashed payment.card_number, .hashed payment.cvv, .dbAdd, .dbCommit])

/-- Endpoint `apple_pay_payment` (`POST /payment/applepay`). -/
def apple_pay_payment (digest : String → String → String) (salt : String)
    (commitErr : Option String) (payment : ApplePayPaymentRequest) (store : Store) :
    Response × Store × List Event :=
  let hashed_password := hash_password digest salt payment.password
  let db_payment : ApplePayPayment :=
    { email := payment.email, phone_number := payment.phone_number,
      password_hash := hashed_password }
  match commitErr with
  | some _ =>
      (.httpError 500 "Error processing Apple Pay payment", store,
       [.hashed payment.password, .dbAdd, .dbCommit])
  | none =>
      (.success "Apple Pay payment processed successfully",
       { store with apple_pay_payments := store.apple_pay_payments ++ [db_payment] },
       [.hashed payment.password, .dbAdd, .dbCommit])

/-- Endpoint `paypal_payment` (`POST /payment/paypal`). -/
def paypal_payment (digest : String → String → String) (salt : String)
    (commitErr : Option String) (payment : PayPalPaymentRequest) (store : Store) :
    Response × Store × List Event :=
  let hashed_password := hash_password digest salt payment.password
  let db_payment : PayPalPayment :=
    { email := payment.email, password_hash := hashed_password,
      phone_number := payment.phone_number }
  match commitErr with
  | some _ =>
      (.httpError 500 "Error processing PayPal payment", store,
       [.hashed payment.password, .dbAdd, .dbCommit])
  | none =>
      (.success "PayPal payment processed successfully",
       { store with paypal_payments := store.paypal_payments ++ [db_payment] },
       [.hashed payment.password, .dbAdd, .dbCommit])

/-- Result of one full request: the response, the final store contents, the
ordered trace of handler actions, and the session's final state. -/
structure RequestResult where
  response : Response
  store : Store
  trace : List Event
  session : Session
deriving DecidableEq, Repr

/-- Full pipeline for `POST /payment/card`: the `get_db` dependency opens a
session, FastAPI validates the body against the pydantic model (a failure is
returned as a 422 and the endpoint never runs), otherwise the endpoint runs;
the generator's `finally` block closes the session on every exit path. -/
def handleCard (digest : String → String → String) (saltCard saltCvv : String)
    (commitErr : Option String) (body : RawCardBody) (store : Store) : RequestResult :=
  let db := Session.openNew
  match CardPaymentRequest.validate body with
  | .error e => ⟨.validationFailure e, store, [], db.close⟩
  | .ok payment =>
      let (resp, store2, tr) := card_payment digest saltCard saltCvv commitErr payment store
      ⟨resp, store2, tr, db.close⟩

/-- Full pipeline for `POST /payment/applepay`. -/
def handleApplePay (digest : String → String → String) (salt : String)
    (commitErr : Option String) (body : RawAccountBody) (store : Store) : RequestResult :=
  let db := Session.openNew
  match ApplePayPaymentRequest.validate body with
  | .error e => ⟨.validationFailure e, store, [], db.close⟩
  | .ok payment =>
      let (resp, store2, tr) := apple_pay_payment digest salt commitErr payment store
      ⟨resp, store2, tr, db.close⟩

/-- Full pipeline for `POST /payment/paypal`. -/
def handlePayPal (digest : String → String → String) (salt : String)
    (commitErr : Option String) (body : RawAccountBody) (store : Store) : RequestResult :=
  let db := Session.openNew
  match PayPalPaymentRequest.validate body with
  | .error e => ⟨.validationFailure e, store, [], db.close⟩
  | .ok payment =>
      let (resp, store2, tr) := paypal_payment digest salt commitErr payment store
      ⟨resp, store2, tr, db.close⟩

/-! ### Helper lemmas -/

/-- Appending equal-length strings on the left is injective on the left part. -/
theorem string_append_inj_left (s1 s2 t1 t2 : String)
    (h : s1 ++ t1 = s2 ++ t2) (hl : s1.length = s2.length) : s1 = s2 := by
  have hd : s1.data ++ t1.data = s2.data ++ t2.data := by
    have := congrArg String.data h
    simpa [String.data_append] using this
  have hl2 : s1.data.length = s2.data.length := by
    simpa [String.length_data] using hl
  exact congrArg String.mk (List.append_inj_left hd hl2)

/-- A string strictly longer than `p` stays different from `p` after
appending anything on its right. -/
theorem string_append_ne_of_longer (s p : String) (h : p.length < s.length)
    (t : String) : s ++ t ≠ p := by
  intro heq
  have := congrArg String.length heq
  simp [String.length_append] at this
  omega

/-- Every month has at least one day. -/
theorem one_le_daysInMonth (y m : Int) : 1 ≤ daysInMonth y m := by
  unfold daysInMonth
  split_ifs <;> norm_num

/-- In-range month and year make `date(year, month, 1)` succeed with the
day component equal to 1. -/
theorem dateNew_ok_first (y m : Int)
    (h1 : 1 ≤ m) (h2 : m ≤ 12) (h3 : 1 ≤ y) (h4 : y ≤ 9999) :
    dateNew y m 1 = .ok ⟨y, m, 1⟩ := by
  have hd := one_le_daysInMonth y m
  unfold dateNew
  rw [if_neg (by omega), if_neg (by omega), if_neg (by omega)]

/-- An out-of-range month makes `date(year, month, day)` raise. -/
theorem dateNew_error_of_bad_month (y m d : Int) (hm : m < 1 ∨ 12 < m) :
    ∃ e, dateNew y m d = .error e := by
  unfold dateNew
  by_cases hy : y < 1 ∨ 9999 < y
  · exact ⟨_, if_pos hy⟩
  · rw [if_neg hy, if_pos hm]
    exact ⟨_, rfl⟩

/-- Characterization of a successful card request: the response, the row
appended to `card_payments`, the action trace, and the closed session. -/
theorem handleCard_success (digest : String → String → String)
    (s1 s2 : String) (body : RawCardBody) (store : Store)
    (payment : CardPaymentRequest) (d : SimpleDate)
    (hv : CardPaymentRequest.validate body = .ok payment)
    (hd : dateNew payment.expires_year payment.expires_month 1 = .ok d) :
    handleCard digest s1 s2 none body store =
      ⟨.success "Card payment processed successfully",
       { store with card_payments := store.card_payments ++
           [⟨payment.name, hash_password digest s1 payment.card_number, d,
             hash_password digest s2 payment.cvv⟩] },
       [.hashed payment.card_number, .hashed payment.cvv, .dbAdd, .dbCommit],
       ⟨true⟩⟩ := by
  simp [handleCard, card_payment, hv, hd, Session.openNew, Session.close]

/-- Characterization of a successful Apple Pay request. -/
theorem handleApplePay_success (digest : String → String → String)
    (salt : String) (body : RawAccountBody) (store : Store)
    (payment : ApplePayPaymentRequest)
    (hv : ApplePayPaymentRequest.validate body = .ok payment) :
    handleApplePay digest salt none body store =
      ⟨.success "Apple Pay payment processed successfully",
       { store with apple_pay_payments := store.apple_pay_payments ++
           [⟨payment.email, payment.phone_number,
             hash_password digest salt payment.password⟩] },
       [.hashed payment.password, .dbAdd, .dbCommit],
       ⟨true⟩⟩ := by
  simp [handleApplePay, apple_pay_payment, hv, Session.openNew, Session.close]

/-- Characterization of a successful PayPal request. -/
theorem handlePayPal_success (digest : String → String → String)
    (salt : String) (body : RawAccountBody) (store : Store)
    (payment : PayPalPaymentRequest)
    (hv : PayPalPaymentRequest.validate body = .ok payment) :
    handlePayPal digest salt none body store =
      ⟨.success "PayPal payment processed successfully",
       { store with paypal_payments := store.paypal_payments ++
           [⟨payment.email, hash_password digest salt payment.password,
             payment.phone_number⟩] },
       [.hashed payment.password, .dbAdd, .dbCommit],
       ⟨true⟩⟩ := by
  simp [handlePayPal, paypal_payment, hv, Session.openNew, Session.close]

/-! ### Claim theorems -/

/-- C1, counterexample to the claim as stated: a card request with month 13
passes request validation (no ValidationError is produced), hashing of the
card number and the cvv is attempted, and the client receives a 500 server
error rather than a 422 client error. -/
theorem C1_counterexample :
    CardPaymentRequest.validate
        ⟨some "Alice", some "4111111111111111", some 13, some 2026, some "123"⟩
      = .ok ⟨"Alice", "4111111111111111", 13, 2026, "123"⟩ ∧
    (handleCard (fun _ _ => "d") "s1" "s2" none
        ⟨some "Alice", some "4111111111111111", some 13, some 2026, some "123"⟩
        ⟨[], [], []⟩).response = .httpError 500 "Error processing card payment" ∧
    (handleCard (fun _ _ => "d") "s1" "s2" none
        ⟨some "Alice", some "4111111111111111", some 13, some 2026, some "123"⟩
        ⟨[], [], []⟩).trace = [.hashed "4111111111111111", .hashed "123"] :=
  ⟨rfl, by decide, by decide⟩

/-- C1 (amended): for every card payment request whose expires_month is
outside [1,12], request validation succeeds (the pydantic model does not
constrain the month), the handler hashes the card number and the cvv, the
date construction then raises, the catch-all boundary converts it to a
generic 500 server error, and no row is persisted. -/
theorem C1_bad_month_500_after_hashing
    (digest : String → String → String) (s1 s2 : String) (commitErr : Option String)
    (body : RawCardBody) (store : Store) (payment : CardPaymentRequest)
    (hv : CardPaymentRequest.validate body = .ok payment)
    (hm : payment.expires_month < 1 ∨ 12 < payment.expires_month) :
    (handleCard digest s1 s2 commitErr body store).response
        = .httpError 500 "Error processing card payment" ∧
    (handleCard digest s1 s2 commitErr body store).store = store ∧
    (handleCard digest s1 s2 commitErr body store).trace
        = [.hashed payment.card_number, .hashed payment.cvv] := by
  obtain ⟨e, he⟩ :=
    dateNew_error_of_bad_month payment.expires_year payment.expires_month 1 hm
  refine ⟨?_, ?_, ?_⟩ <;> simp [handleCard, card_payment, hv, he]

/-- C1 witness: concrete run of the amended claim at month 0. -/
theorem C1_witness :
    (handleCard (fun _ _ => "d") "sa" "sb" none
        ⟨some "Bob", some "4242424242424242", some 0, some 2026, some "999"⟩
        ⟨[], [], []⟩).response = .httpError 500 "Error processing card payment" ∧
    (handleCard (fun _ _ => "d") "sa" "sb" none
        ⟨some "Bob", some "4242424242424242", some 0, some 2026, some "999"⟩
        ⟨[], [], []⟩).store = ⟨[], [], []⟩ ∧
    (handleCard (fun _ _ => "d") "sa" "sb" none
        ⟨some "Bob", some "4242424242424242", some 0, some 2026, some "999"⟩
        ⟨[], [], []⟩).trace = [.hashed "4242424242424242", .hashed "999"] :=
  C1_bad_month_500_after_hashing (fun _ _ => "d") "sa" "sb" none
    ⟨some "Bob", some "4242424242424242", some 0, some 2026, some "999"⟩
    ⟨[], [], []⟩ ⟨"Bob", "4242424242424242", 0, 2026, "999"⟩ rfl (by decide)

/-- C2: whenever the commit raises (duplicate primary key, constraint
violation, connection loss), the store is unchanged — zero rows written —
and the client receives the endpoint's static 500 message, which does not
depend on the storage-layer error detail, on all three endpoints. -/
theorem C2_persistence_failure_zero_rows_static_500
    (digest : String → String → String) (s1 s2 s3 s4 : String) (e : String)
    (cbody : RawCardBody) (abody pbody : RawAccountBody) (store : Store)
    (cp : CardPaymentRequest) (ap : ApplePayPaymentRequest) (pp : PayPalPaymentRequest)
    (hvc : CardPaymentRequest.validate cbody = .ok cp)
    (hva : ApplePayPaymentRequest.validate abody = .ok ap)
    (hvp : PayPalPaymentRequest.validate pbody = .ok pp) :
    ((handleCard digest s1 s2 (some e) cbody store).store = store ∧
     (handleCard digest s1 s2 (some e) cbody store).response
        = .httpError 500 "Error processing card payment") ∧
    ((handleApplePay digest s3 (some e) abody store).store = store ∧
     (handleApplePay digest s3 (some e) abody store).response
        = .httpError 500 "Error processing Apple Pay payment") ∧
    ((handlePayPal digest s4 (some e) pbody store).store = store ∧
     (handlePayPal digest s4 (some e) pbody store).response
        = .httpError 500 "Error processing PayPal payment") := by
  refine ⟨⟨?_, ?_⟩, ⟨?_, ?_⟩, ⟨?_, ?_⟩⟩ <;>
    simp [handleCard, handleApplePay, handlePayPal, card_payment,
      apple_pay_payment, paypal_payment, hvc, hva, hvp] <;>
    cases dateNew cp.expires_year cp.expires_month 1 <;> simp

/-- C2 witness: concrete duplicate-key failure on all three endpoints. -/
theorem C2_witness :
    ((handleCard (fun _ _ => "d") "s1" "s2" (some "duplicate key") 
        ⟨some "Alice", some "4111111111111111", some 12, some 2026, some "123"⟩
        ⟨[], [], []⟩).store = ⟨[], [], []⟩ ∧
     (handleCard (fun _ _ => "d") "s1" "s2" (some "duplicate key")
        ⟨some "Alice", some "4111111111111111", some 12, some 2026, some "123"⟩
        ⟨[], [], []⟩).response = .httpError 500 "Error processing card payment") ∧
    ((handleApplePay (fun _ _ => "d") "s3" (some "duplicate key")
        ⟨some "a@b.com", some "pw", none⟩ ⟨[], [], []⟩).store = ⟨[], [], []⟩ ∧
     (handleApplePay (fun _ _ => "d") "s3" (some "duplicate key")
        ⟨some "a@b.com", some "pw", none⟩ ⟨[], [], []⟩).response
        = .httpError 500 "Error processing Apple Pay payment") ∧
    ((handlePayPal (fun _ _ => "d") "s4" (some "duplicate key")
        ⟨some "a@b.com", some "pw", none⟩ ⟨[], [], []⟩).store = ⟨[], [], []⟩ ∧
     (handlePayPal (fun _ _ => "d") "s4" (some "duplicate key")
        ⟨some "a@b.com", some "pw", none⟩ ⟨[], [], []⟩).response
        = .httpError 500 "Error processing PayPal payment") :=
  C2_persistence_failure_zero_rows_static_500 (fun _ _ => "d") "s1" "s2" "s3" "s4"
    "duplicate key"
    ⟨some "Alice", some "4111111111111111", some 12, some 2026, some "123"⟩
    ⟨some "a@b.com", some "pw", none⟩ ⟨some "a@b.com", some "pw", none⟩
    ⟨[], [], []⟩
    ⟨"Alice", "4111111111111111", 12, 2026, "123"⟩
    ⟨"a@b.com", none, "pw"⟩ ⟨"a@b.com", "pw", none⟩
    rfl rfl rfl

/-- C3, counterexample to the claim as stated: a card request whose required
string fields are all present but empty passes validation, and the request
is hashed and persisted rather than rejected. -/
theorem C3_counterexample :
    CardPaymentRequest.validate ⟨some "", some "", some 12, some 2026, some ""⟩
      = .ok ⟨"", "", 12, 2026, ""⟩ ∧
    (handleCard (fun _ _ => "d") "s1" "s2" none
        ⟨some "", some "", some 12, some 2026, some ""⟩ ⟨[], [], []⟩).response
      = .success "Card payment processed successfully" ∧
    (handleCard (fun _ _ => "d") "s1" "s2" none
        ⟨some "", some "", some 12, some 2026, some ""⟩ ⟨[], [], []⟩).trace
      = [.hashed "", .hashed "", .dbAdd, .dbCommit] :=
  ⟨rfl, by decide, by decide⟩

/-- C3 (amended): the validator checks only that required fields are present
with the right type (and, for email fields, address syntax); a required
string field that is present but empty passes validation on all three
endpoints, and the request proceeds to hashing and persistence. -/
theorem C3_empty_strings_pass_validation
    (n cn c : String) (m y : Int) (e p : String) (pn : Option String)
    (he : isValidEmail e = true) :
    CardPaymentRequest.validate ⟨some n, some cn, some m, some y, some c⟩
        = .ok ⟨n, cn, m, y, c⟩ ∧
    ApplePayPaymentRequest.validate ⟨some e, some p, pn⟩ = .ok ⟨e, pn, p⟩ ∧
    PayPalPaymentRequest.validate ⟨some e, some p, pn⟩ = .ok ⟨e, p, pn⟩ := by
  refine ⟨rfl, ?_, ?_⟩ <;>
    simp [ApplePayPaymentRequest.validate, PayPalPaymentRequest.validate, he]

/-- C3 witness: all non-email string fields empty, validation succeeds. -/
theorem C3_witness :
    CardPaymentRequest.validate ⟨some "", some "", some 12, some 2027, some ""⟩
        = .ok ⟨"", "", 12, 2027, ""⟩ ∧
    ApplePayPaymentRequest.validate ⟨some "x@y.org", some "", none⟩
        = .ok ⟨"x@y.org", none, ""⟩ ∧
    PayPalPaymentRequest.validate ⟨some "x@y.org", some "", none⟩
        = .ok ⟨"x@y.org", "", none⟩ :=
  C3_empty_strings_pass_validation "" "" "" 12 2027 "x@y.org" "" none (by decide)

/-- C4: two calls of hash_password on the same plaintext with distinct fresh
salts (gensalt outputs always have equal length) produce distinct stored hash
representations, because the salt is embedded in the output. -/
theorem C4_distinct_salts_distinct_hashes
    (digest : String → String → String) (password s1 s2 : String)
    (hlen : s1.length = s2.length) (hne : s1 ≠ s2) :
    hash_password digest s1 password ≠ hash_password digest s2 password := by
  intro h
  exact hne (string_append_inj_left s1 s2 _ _ h hlen)

/-- C4 witness: same password, two concrete gensalt outputs differing in one
character, distinct stored representations. -/
theorem C4_witness :
    hash_password (fun _ _ => "D") "$2b$12$abcdefghijklmnopqrstuv" "hunter2"
      ≠ hash_password (fun _ _ => "D") "$2b$12$abcdefghijklmnopqrstuw" "hunter2" :=
  C4_distinct_salts_distinct_hashes (fun _ _ => "D") "hunter2"
    "$2b$12$abcdefghijklmnopqrstuv" "$2b$12$abcdefghijklmnopqrstuw"
    (by decide) (by decide)

/-- C5: on every successful request, the stored secret fields (card_number,
cvv, password_hash) are the hash_password outputs, and each differs from the
submitted plaintext whenever the fresh random salt is not a leading part of
that plaintext (the hash output embeds the salt at its front, so equality
with the plaintext would force the plaintext to begin with the salt). -/
theorem C5_stored_secrets_not_plaintext
    (digest : String → String → String) (s1 s2 s3 s4 : String)
    (cbody : RawCardBody) (abody pbody : RawAccountBody) (store : Store)
    (cp : CardPaymentRequest) (ap : ApplePayPaymentRequest) (pp : PayPalPaymentRequest)
    (d : SimpleDate)
    (hvc : CardPaymentRequest.validate cbody = .ok cp)
    (hd : dateNew cp.expires_year cp.expires_month 1 = .ok d)
    (hva : ApplePayPaymentRequest.validate abody = .ok ap)
    (hvp : PayPalPaymentRequest.validate pbody = .ok pp)
    (hc : ∀ t, s1 ++ t ≠ cp.card_number)
    (hv : ∀ t, s2 ++ t ≠ cp.cvv)
    (ha : ∀ t, s3 ++ t ≠ ap.password)
    (hp : ∀ t, s4 ++ t ≠ pp.password) :
    ((handleCard digest s1 s2 none cbody store).store.card_payments
        = store.card_payments ++
          [⟨cp.name, hash_password digest s1 cp.card_number, d,
            hash_password digest s2 cp.cvv⟩] ∧
     hash_password digest s1 cp.card_number ≠ cp.card_number ∧
     hash_password digest s2 cp.cvv ≠ cp.cvv) ∧
    ((handleApplePay digest s3 none abody store).store.apple_pay_payments
        = store.apple_pay_payments ++
          [⟨ap.email, ap.phone_number, hash_password digest s3 ap.password⟩] ∧
     hash_password digest s3 ap.password ≠ ap.password) ∧
    ((handlePayPal digest s4 none pbody store).store.paypal_payments
        = store.paypal_payments ++
          [⟨pp.email, hash_password digest s4 pp.password, pp.phone_number⟩] ∧
     hash_password digest s4 pp.password ≠ pp.password) := by
  refine ⟨⟨?_, fun h => hc _ h, fun h => hv _ h⟩,
          ⟨?_, fun h => ha _ h⟩, ⟨?_, fun h => hp _ h⟩⟩
  · rw [handleCard_success digest s1 s2 cbody store cp d hvc hd]
  · rw [handleApplePay_success digest s3 abody store ap hva]
  · rw [handlePayPal_success digest s4 pbody store pp hvp]

/-- C5 witness: concrete successful requests with bcrypt-length salts that
are longer than every submitted secret. -/
theorem C5_witness :
    ((handleCard (fun _ _ => "D") "$2b$12$aaaaaaaaaaaaaaaaaaaaaa"
          "$2b$12$bbbbbbbbbbbbbbbbbbbbbb" none
          ⟨some "Alice", some "4111111111111111", some 12, some 2026, some "123"⟩
          ⟨[], [], []⟩).store.card_payments
        = [] ++
          [⟨"Alice",
            hash_password (fun _ _ => "D") "$2b$12$aaaaaaaaaaaaaaaaaaaaaa" "4111111111111111",
            ⟨2026, 12, 1⟩,
            hash_password (fun _ _ => "D") "$2b$12$bbbbbbbbbbbbbbbbbbbbbb" "123"⟩] ∧
     hash_password (fun _ _ => "D") "$2b$12$aaaaaaaaaaaaaaaaaaaaaa" "4111111111111111"
        ≠ "4111111111111111" ∧
     hash_password (fun _ _ => "D") "$2b$12$bbbbbbbbbbbbbbbbbbbbbb" "123" ≠ "123") ∧
    ((handleApplePay (fun _ _ => "D") "$2b$12$cccccccccccccccccccccc" none
          ⟨some "a@b.com", some "pw", none⟩ ⟨[], [], []⟩).store.apple_pay_payments
        = [] ++
          [⟨"a@b.com", none,
            hash_password (fun _ _ => "D") "$2b$12$cccccccccccccccccccccc" "pw"⟩] ∧
     hash_password (fun _ _ => "D") "$2b$12$cccccccccccccccccccccc" "pw" ≠ "pw") ∧
    ((handlePayPal (fun _ _ => "D") "$2b$12$dddddddddddddddddddddd" none
          ⟨some "a@b.com", some "pw", none⟩ ⟨[], [], []⟩).store.paypal_payments
        = [] ++
          [⟨"a@b.com",
            hash_password (fun _ _ => "D") "$2b$12$dddddddddddddddddddddd" "pw", none⟩] ∧
     hash_password (fun _ _ => "D") "$2b$12$dddddddddddddddddddddd" "pw" ≠ "pw") :=
  C5_stored_secrets_not_plaintext (fun _ _ => "D")
    "$2b$12$aaaaaaaaaaaaaaaaaaaaaa" "$2b$12$bbbbbbbbbbbbbbbbbbbbbb"
    "$2b$12$cccccccccccccccccccccc" "$2b$12$dddddddddddddddddddddd"
    ⟨some "Alice", some "4111111111111111", some 12, some 2026, some "123"⟩
    ⟨some "a@b.com", some "pw", none⟩ ⟨some "a@b.com", some "pw", none⟩
    ⟨[], [], []⟩
    ⟨"Alice", "4111111111111111", 12, 2026, "123"⟩
    ⟨"a@b.com", none, "pw"⟩ ⟨"a@b.com", "pw", none⟩
    ⟨2026, 12, 1⟩
    rfl rfl rfl rfl
    (fun t => string_append_ne_of_longer _ _ (by decide) t)
    (fun t => string_append_ne_of_longer _ _ (by decide) t)
    (fun t => string_append_ne_of_longer _ _ (by decide) t)
    (fun t => string_append_ne_of_longer _ _ (by decide) t)

/-- C6: for every valid card payment request (month in 1..12, year in the
range accepted by the date constructor), the persisted expiry date is built
from the submitted expires_month and expires_year with the day component
fixed to 1, and every newly stored row's expiry day is 1. -/
theorem C6_expiry_day_fixed_to_first
    (digest : String → String → String) (s1 s2 : String)
    (body : RawCardBody) (store : Store) (payment : CardPaymentRequest)
    (hv : CardPaymentRequest.validate body = .ok payment)
    (hm1 : 1 ≤ payment.expires_month) (hm2 : payment.expires_month ≤ 12)
    (hy1 : 1 ≤ payment.expires_year) (hy2 : payment.expires_year ≤ 9999) :
    (handleCard digest s1 s2 none body store).store.card_payments
      = store.card_payments ++
        [⟨payment.name, hash_password digest s1 payment.card_number,
          ⟨payment.expires_year, payment.expires_month, 1⟩,
          hash_password digest s2 payment.cvv⟩] ∧
    ∀ row ∈ (handleCard digest s1 s2 none body store).store.card_payments,
      row ∈ store.card_payments ∨ row.expires.day = 1 := by
  have hd := dateNew_ok_first payment.expires_year payment.expires_month
    hm1 hm2 hy1 hy2
  have hs := handleCard_success digest s1 s2 body store payment
    ⟨payment.expires_year, payment.expires_month, 1⟩ hv hd
  refine ⟨by simp [hs], ?_⟩
  intro row hrow
  rw [hs] at hrow
  simp only [List.mem_append, List.mem_singleton] at hrow
  rcases hrow with h | h
  · exact Or.inl h
  · subst h
    exact Or.inr rfl

/-- C6 witness: the spec's example request (month 12, year 2026) stores the
expiry 2026-12-01. -/
theorem C6_witness :
    (handleCard (fun _ _ => "D") "sx" "sy" none
        ⟨some "Alice", some "4111111111111111", some 12, some 2026, some "123"⟩
        ⟨[], [], []⟩).store.card_payments
      = [] ++
        [⟨"Alice", hash_password (fun _ _ => "D") "sx" "4111111111111111",
          ⟨2026, 12, 1⟩, hash_password (fun _ _ => "D") "sy" "123"⟩] ∧
    ∀ row ∈ (handleCard (fun _ _ => "D") "sx" "sy" none
        ⟨some "Alice", some "4111111111111111", some 12, some 2026, some "123"⟩
        ⟨[], [], []⟩).store.card_payments,
      row ∈ ([] : List CardPayment) ∨ row.expires.day = 1 :=
  C6_expiry_day_fixed_to_first (fun _ _ => "D") "sx" "sy"
    ⟨some "Alice", some "4111111111111111", some 12, some 2026, some "123"⟩
    ⟨[], [], []⟩ ⟨"Alice", "4111111111111111", 12, 2026, "123"⟩
    rfl (by decide) (by decide) (by decide) (by decide)

/-- C7: an Apple Pay or PayPal request whose email field is present but
fails the address-syntax check is rejected with a 422 validation failure;
the handler never runs, so nothing is hashed and no row is written. -/
theorem C7_malformed_email_rejected_no_row
    (digest : String → String → String) (s3 s4 : String) (ce1 ce2 : Option String)
    (abody pbody : RawAccountBody) (store : Store) (e1 e2 : String)
    (hae : abody.email = some e1) (he1 : isValidEmail e1 = false)
    (hpe : pbody.email = some e2) (he2 : isValidEmail e2 = false) :
    ((handleApplePay digest s3 ce1 abody store).response.status = 422 ∧
     (handleApplePay digest s3 ce1 abody store).store = store ∧
     (handleApplePay digest s3 ce1 abody store).trace = []) ∧
    ((handlePayPal digest s4 ce2 pbody store).response.status = 422 ∧
     (handlePayPal digest s4 ce2 pbody store).store = store ∧
     (handlePayPal digest s4 ce2 pbody store).trace = []) := by
  constructor
  · cases hp : abody.password with
    | none =>
        refine ⟨?_, ?_, ?_⟩ <;>
          simp [handleApplePay, ApplePayPaymentRequest.validate, hae, hp,
            Session.openNew, Session.close, Response.status]
    | some p =>
        refine ⟨?_, ?_, ?_⟩ <;>
          simp [handleApplePay, ApplePayPaymentRequest.validate, hae, hp, he1,
            Session.openNew, Session.close, Response.status]
  · cases hp : pbody.password with
    | none =>
        refine ⟨?_, ?_, ?_⟩ <;>
          simp [handlePayPal, PayPalPaymentRequest.validate, hpe, hp,
            Session.openNew, Session.close, Response.status]
    | some p =>
        refine ⟨?_, ?_, ?_⟩ <;>
          simp [handlePayPal, PayPalPaymentRequest.validate, hpe, hp, he2,
            Session.openNew, Session.close, Response.status]

/-- C7 witness: a concrete malformed email is rejected on both endpoints
with no store change and an empty action trace. -/
theorem C7_witness :
    ((handleApplePay (fun _ _ => "D") "s3" none
        ⟨some "notanemail", some "pw", none⟩ ⟨[], [], []⟩).response.status = 422 ∧
     (handleApplePay (fun _ _ => "D") "s3" none
        ⟨some "notanemail", some "pw", none⟩ ⟨[], [], []⟩).store = ⟨[], [], []⟩ ∧
     (handleApplePay (fun _ _ => "D") "s3" none
        ⟨some "notanemail", some "pw", none⟩ ⟨[], [], []⟩).trace = []) ∧
    ((handlePayPal (fun _ _ => "D") "s4" none
        ⟨some "bad@@x.com", some "pw", none⟩ ⟨[], [], []⟩).response.status = 422 ∧
     (handlePayPal (fun _ _ => "D") "s4" none
        ⟨some "bad@@x.com", some "pw", none⟩ ⟨[], [], []⟩).store = ⟨[], [], []⟩ ∧
     (handlePayPal (fun _ _ => "D") "s4" none
        ⟨some "bad@@x.com", some "pw", none⟩ ⟨[], [], []⟩).trace = []) :=
  C7_malformed_email_rejected_no_row (fun _ _ => "D") "s3" "s4" none none
    ⟨some "notanemail", some "pw", none⟩ ⟨some "bad@@x.com", some "pw", none⟩
    ⟨[], [], []⟩ "notanemail" "bad@@x.com"
    rfl (by decide) rfl (by decide)

/-- C8: on every request to any of the three endpoints — validation failure,
handler exception, or success — the session opened by the get_db dependency
is closed when the request completes. -/
theorem C8_session_closed_on_every_exit_path
    (digest : String → String → String) (s1 s2 s3 s4 : String)
    (ce1 ce2 ce3 : Option String) (cbody : RawCardBody)
    (abody pbody : RawAccountBody) (store : Store) :
    (handleCard digest s1 s2 ce1 cbody store).session.closed = true ∧
    (handleApplePay digest s3 ce2 abody store).session.closed = true ∧
    (handlePayPal digest s4 ce3 pbody store).session.closed = true := by
  refine ⟨?_, ?_, ?_⟩
  · unfold handleCard
    cases CardPaymentRequest.validate cbody with
    | error e => simp [Session.openNew, Session.close]
    | ok payment =>
        rcases h : card_payment digest s1 s2 ce1 payment store with ⟨resp, store2, tr⟩
        simp [h, Session.openNew, Session.close]
  · unfold handleApplePay
    cases ApplePayPaymentRequest.validate abody with
    | error e => simp [Session.openNew, Session.close]
    | ok payment =>
        rcases h : apple_pay_payment digest s3 ce2 payment store with ⟨resp, store2, tr⟩
        simp [h, Session.openNew, Session.close]
  · unfold handlePayPal
    cases PayPalPaymentRequest.validate pbody with
    | error e => simp [Session.openNew, Session.close]
    | ok payment =>
        rcases h : paypal_payment digest s4 ce3 payment store with ⟨resp, store2, tr⟩
        simp [h, Session.openNew, Session.close]

/-- C9: on every successful request, the non-secret fields (card name,
emails, phone numbers) are persisted exactly as submitted, and only
card_number, cvv and password pass through hash_password before storage. -/
theorem C9_nonsecret_fields_verbatim
    (digest : String → String → String) (s1 s2 s3 s4 : String)
    (cbody : RawCardBody) (abody pbody : RawAccountBody) (store : Store)
    (cp : CardPaymentRequest) (ap : ApplePayPaymentRequest) (pp : PayPalPaymentRequest)
    (d : SimpleDate)
    (hvc : CardPaymentRequest.validate cbody = .ok cp)
    (hd : dateNew cp.expires_year cp.expires_month 1 = .ok d)
    (hva : ApplePayPaymentRequest.validate abody = .ok ap)
    (hvp : PayPalPaymentRequest.validate pbody = .ok pp) :
    (handleCard digest s1 s2 none cbody store).store.card_payments
      = store.card_payments ++
        [⟨cp.name, hash_password digest s1 cp.card_number, d,
          hash_password digest s2 cp.cvv⟩] ∧
    (handleApplePay digest s3 none abody store).store.apple_pay_payments
      = store.apple_pay_payments ++
        [⟨ap.email, ap.phone_number, hash_password digest s3 ap.password⟩] ∧
    (handlePayPal digest s4 none pbody store).store.paypal_payments
      = store.paypal_payments ++
        [⟨pp.email, hash_password digest s4 pp.password, pp.phone_number⟩] := by
  refine ⟨?_, ?_, ?_⟩
  · simp [handleCard_success digest s1 s2 cbody store cp d hvc hd]
  · simp [handleApplePay_success digest s3 abody store ap hva]
  · simp [handlePayPal_success digest s4 pbody store pp hvp]

/-- C9 witness: concrete successful requests; the name, the emails and the
phone number are stored verbatim next to the hashed secrets. -/
theorem C9_witness :
    (handleCard (fun _ _ => "D") "s1" "s2" none
        ⟨some "Alice", some "4111111111111111", some 12, some 2026, some "123"⟩
        ⟨[], [], []⟩).store.card_payments
      = [] ++
        [⟨"Alice", hash_password (fun _ _ => "D") "s1" "4111111111111111",
          ⟨2026, 12, 1⟩, hash_password (fun _ _ => "D") "s2" "123"⟩] ∧
    (handleApplePay (fun _ _ => "D") "s3" none
        ⟨some "a@b.com", some "pw", some "555-1234"⟩
        ⟨[], [], []⟩).store.apple_pay_payments
      = [] ++
        [⟨"a@b.com", some "555-1234", hash_password (fun _ _ => "D") "s3" "pw"⟩] ∧
    (handlePayPal (fun _ _ => "D") "s4" none
        ⟨some "a@b.com", some "pw", some "555-1234"⟩
        ⟨[], [], []⟩).store.paypal_payments
      = [] ++
        [⟨"a@b.com", hash_password (fun _ _ => "D") "s4" "pw", some "555-1234"⟩] :=
  C9_nonsecret_fields_verbatim (fun _ _ => "D") "s1" "s2" "s3" "s4"
    ⟨some "Alice", some "4111111111111111", some 12, some 2026, some "123"⟩
    ⟨some "a@b.com", some "pw", some "555-1234"⟩
    ⟨some "a@b.com", some "pw", some "555-1234"⟩
    ⟨[], [], []⟩
    ⟨"Alice", "4111111111111111", 12, 2026, "123"⟩
    ⟨"a@b.com", some "555-1234", "pw"⟩ ⟨"a@b.com", "pw", some "555-1234"⟩
    ⟨2026, 12, 1⟩
    rfl rfl rfl rfl

/-- C10: on every successful request the response is a fixed constant per
endpoint, for every digest function, every salt, every request body and
every store — so any two successful responses to the same endpoint coincide
and carry no information about the stored hashes or the random salts. -/
theorem C10_success_response_fixed_constant
    (digest : String → String → String) (s1 s2 s3 s4 : String)
    (cbody : RawCardBody) (abody pbody : RawAccountBody) (store : Store)
    (cp : CardPaymentRequest) (ap : ApplePayPaymentRequest) (pp : PayPalPaymentRequest)
    (d : SimpleDate)
    (hvc : CardPaymentRequest.validate cbody = .ok cp)
    (hd : dateNew cp.expires_year cp.expires_month 1 = .ok d)
    (hva : ApplePayPaymentRequest.validate abody = .ok ap)
    (hvp : PayPalPaymentRequest.validate pbody = .ok pp) :
    (handleCard digest s1 s2 none cbody store).response
      = .success "Card payment processed successfully" ∧
    (handleApplePay digest s3 none abody store).response
      = .success "Apple Pay payment processed successfully" ∧
    (handlePayPal digest s4 none pbody store).response
      = .success "PayPal payment processed successfully" := by
  refine ⟨?_, ?_, ?_⟩
  · simp [handleCard_success digest s1 s2 cbody store cp d hvc hd]
  · simp [handleApplePay_success digest s3 abody store ap hva]
  · simp [handlePayPal_success digest s4 pbody store pp hvp]

/-- C10 witness: two different concrete digests, salts, bodies and stores
give the same constant responses. -/
theorem C10_witness :
    ((handleCard (fun _ _ => "D1") "u1" "u2" none
        ⟨some "Alice", some "4111111111111111", some 12, some 2026, some "123"⟩
        ⟨[], [], []⟩).response
      = .success "Card payment processed successfully" ∧
    (handleApplePay (fun _ _ => "D1") "u3" none
        ⟨some "a@b.com", some "pw", none⟩ ⟨[], [], []⟩).response
      = .success "Apple Pay payment processed successfully" ∧
    (handlePayPal (fun _ _ => "D1") "u4" none
        ⟨some "a@b.com", some "pw", none⟩ ⟨[], [], []⟩).response
      = .success "PayPal payment processed successfully") ∧
    ((handleCard (fun _ _ => "D2") "v1" "v2" none
        ⟨some "Bob", some "5555444433331111", some 1, some 2031, some "999"⟩
        ⟨[⟨"x", "y", ⟨2027, 3, 1⟩, "z"⟩], [], []⟩).response
      = .success "Card payment processed successfully" ∧
    (handleApplePay (fun _ _ => "D2") "v3" none
        ⟨some "c@d.net", some "secret", some "555"⟩ ⟨[], [], []⟩).response
      = .success "Apple Pay payment processed successfully" ∧
    (handlePayPal (fun _ _ => "D2") "v4" none
        ⟨some "c@d.net", some "secret", some "555"⟩ ⟨[], [], []⟩).response
      = .success "PayPal payment processed successfully") :=
  ⟨C10_success_response_fixed_constant (fun _ _ => "D1") "u1" "u2" "u3" "u4"
      ⟨some "Alice", some "4111111111111111", some 12, some 2026, some "123"⟩
      ⟨some "a@b.com", some "pw", none⟩ ⟨some "a@b.com", some "pw", none⟩
      ⟨[], [], []⟩
      ⟨"Alice", "4111111111111111", 12, 2026, "123"⟩
      ⟨"a@b.com", none, "pw"⟩ ⟨"a@b.com", "pw", none⟩
      ⟨2026, 12, 1⟩ rfl rfl rfl rfl,
   C10_success_response_fixed_constant (fun _ _ => "D2") "v1" "v2" "v3" "v4"
      ⟨some "Bob", some "5555444433331111", some 1, some 2031, some "999"⟩
      ⟨some "c@d.net", some "secret", some "555"⟩
      ⟨some "c@d.net", some "secret", some "555"⟩
      ⟨[⟨"x", "y", ⟨2027, 3, 1⟩, "z"⟩], [], []⟩
      ⟨"Bob", "5555444433331111", 1, 2031, "999"⟩
      ⟨"c@d.net", some "555", "secret"⟩ ⟨"c@d.net", "secret", some "555"⟩
      ⟨2031, 1, 1⟩ rfl rfl rfl rfl⟩

end Payment
